import Mathlib

/- Shallow embedding of the AutomataAquarium control core declared in
   src/aquariumlogic/aquariumlogic.h.  The repository ships that header
   (struct layouts, constants, and per-function doc comments) without
   the function bodies, so every behavior below is modelled from the
   specification's words; each such definition says so in its doc
   comment.  Constants and struct fields are taken from the header
   itself. -/

namespace AquariumLogic

/-- Constant from aquariumlogic.h line 17: light threshold. -/
def MIN_LIGHT_VAL : Int := 100

/-- Constant from aquariumlogic.h line 18: piezo tap threshold. -/
def PIEZO_MIN_TAP_VAL : Int := 50

/-- Constant from aquariumlogic.h line 20: sentinel for "no sensor". -/
def NONE : Int := -1

/-- Constant from aquariumlogic.h line 22. -/
def JELLYFISH_RAISED_ANGLE : Int := 0

/-- Constant from aquariumlogic.h line 23. -/
def JELLYFISH_LOWERED_ANGLE : Int := 180

/-- Constant from aquariumlogic.h line 25: SUBSTEPS per fish goal. -/
def FISH_SUB_STEPS_TO_GOAL : Nat := 10

/-- Modelled from the spec: the CRS arrival tolerance is "one tolerance
unit" (spec section 4.1); the numeric unit is 1 logical position unit. -/
def CRS_TOLERANCE : Nat := 1

/- Limited rotation servo (struct at aquariumlogic.h lines 156-159).
   The struct stores only the control line; the spec says it is
   "stateless beyond the last commanded angle", so the model keeps that
   last commanded angle as the observable state. -/

/-- Modelled from the spec: a limited rotation servo remembered by its
last commanded angle (the PWM write itself is external HAL effect). -/
structure LimitedRotationServo where
  angle : Int
deriving DecidableEq

/-- Modelled from the spec: `lrs_setAngle` writes the PWM for the given
angle immediately; the body is absent from src, so the model records the
commanded angle. -/
def lrs_setAngle (s : LimitedRotationServo) (a : Int) : LimitedRotationServo :=
  { s with angle := a }

/-- Modelled from the spec: an LED is a binary output latch
(struct LEDAbstraction, aquariumlogic.h lines 252-255). -/
structure LEDAbstraction where
  isOn : Bool
deriving DecidableEq

/-- Modelled from the spec: `led_turnOn` latches the LED on (body absent
from src). -/
def led_turnOn (l : LEDAbstraction) : LEDAbstraction :=
  { l with isOn := true }

/-- Modelled from the spec: `led_turnOff` latches the LED off (body
absent from src). -/
def led_turnOff (l : LEDAbstraction) : LEDAbstraction :=
  { l with isOn := false }

/- Jellyfish (struct at aquariumlogic.h lines 293-297).  The C struct
   holds the ids of its servo and LED; the model flattens the id
   indirection and holds the referenced instances directly. -/

/-- Modelled from the spec: a jellyfish pairs one limited rotation servo
with one LED. -/
structure Jellyfish where
  servo : LimitedRotationServo
  led : LEDAbstraction
deriving DecidableEq

/-- Modelled from the spec: `jellyfish_lower` sets the servo to
JELLYFISH_LOWERED_ANGLE (180) and turns the LED on (body absent from
src; spec section 4.4 and the header doc comment at lines 320-325). -/
def jellyfish_lower (j : Jellyfish) : Jellyfish :=
  { j with servo := lrs_setAngle j.servo JELLYFISH_LOWERED_ANGLE, led := led_turnOn j.led }

/-- Modelled from the spec: `jellyfish_raise` sets the servo to
JELLYFISH_RAISED_ANGLE (0) and turns the LED off (body absent from src;
spec section 4.4 and the header doc comment at lines 327-332). -/
def jellyfish_raise (j : Jellyfish) : Jellyfish :=
  { j with servo := lrs_setAngle j.servo JELLYFISH_RAISED_ANGLE, led := led_turnOff j.led }

/-- One public jellyfish operation (spec section 4.4: raise and lower
are the only public behaviors). -/
inductive JellyfishOp where
  | lower
  | raise
deriving DecidableEq

/-- Apply one raise/lower operation. -/
def jellyfish_applyOp (j : Jellyfish) : JellyfishOp → Jellyfish
  | JellyfishOp.lower => jellyfish_lower j
  | JellyfishOp.raise => jellyfish_raise j

/-- Apply a sequence of raise/lower operations left to right. -/
def jellyfish_applyOps (j : Jellyfish) (ops : List JellyfishOp) : Jellyfish :=
  ops.foldl jellyfish_applyOp j

/-- The posture/illumination coupling: the jellyfish sits at the lowered
angle exactly when its LED is on. -/
def jellyfish_coupled (j : Jellyfish) : Prop :=
  j.servo.angle = JELLYFISH_LOWERED_ANGLE ↔ j.led.isOn = true

instance (j : Jellyfish) : Decidable (jellyfish_coupled j) := by
  unfold jellyfish_coupled
  infer_instance

/- Continuous rotation servo (struct at aquariumlogic.h lines 43-51:
   controlLine, potLine, zeroValue, position, targetPosition,
   targetVel).  The extra fields below are state the spec requires but
   the header struct leaves implicit: the float32 calibration constant
   is kept as its 32-bit pattern (countsPerUnitBits), the sign the last
   movement was commanded with (spec section 4.1 arrival test), whether
   a movement is in flight, the calibrated/uncalibrated mode of spec
   section 7, and the per-servo fault flag of spec section 7. -/

/-- Modelled from the spec: continuous rotation servo state; struct
fields from aquariumlogic.h lines 43-51 plus the spec-mandated
calibration / fault bookkeeping (spec sections 4.1 and 7). -/
structure ContinuousRotationServo where
  controlLine : Int
  potLine : Int
  zeroValue : Int
  position : Int
  targetPosition : Int
  targetVel : Int
  countsPerUnitBits : Nat
  commandSign : Int
  active : Bool
  calibrated : Bool
  fault : Bool
deriving DecidableEq

/-- Modelled from the spec: `crs_setVelocity` records the commanded
velocity (the raw PWM write is an external HAL effect); on an
uncalibrated servo the command is refused and only the fault flag is
raised (spec section 7, body absent from src). -/
def crs_setVelocity (s : ContinuousRotationServo) (v : Int) : ContinuousRotationServo :=
  if s.calibrated then { s with targetVel := v } else { s with fault := true }

/-- Modelled from the spec: `crs_startMovingTo` sets `targetPosition`
and commands `setVelocity(sign(targetPosition - position) * abs targetVel)`,
remembering the command sign for the arrival test; on an uncalibrated
servo the command is refused and only the fault flag is raised (spec
sections 4.1 and 7, body absent from src). -/
def crs_startMovingTo (s : ContinuousRotationServo) (target : Int) : ContinuousRotationServo :=
  if s.calibrated then
    crs_setVelocity
      { s with targetPosition := target, commandSign := Int.sign (target - s.position),
               active := true }
      (Int.sign (target - s.position) * (s.targetVel.natAbs : Int))
  else { s with fault := true }

/-- Modelled from the spec: scale from degrees to logical position; the
calibrated counts-per-unit value is an unspecified float, abstracted
here as one full rotation spanning 360 logical units. -/
noncomputable def crs_degreesToPosition (deg : ℝ) : Int :=
  ⌊deg / 360 * 360⌋

/-- Modelled from the spec: scale from radians to logical position,
with 2π radians = one full rotation (spec section 4.1). -/
noncomputable def crs_radiansToPosition (rad : ℝ) : Int :=
  ⌊rad / (2 * Real.pi) * 360⌋

/-- Modelled from the spec: `crs_startMovingToDegrees` converts and
delegates to `crs_startMovingTo` (body absent from src). -/
noncomputable def crs_startMovingToDegrees (s : ContinuousRotationServo) (deg : ℝ) :
    ContinuousRotationServo :=
  crs_startMovingTo s (crs_degreesToPosition deg)

/-- Modelled from the spec: `crs_startMovingToAngle` converts and
delegates to `crs_startMovingTo` (body absent from src). -/
noncomputable def crs_startMovingToAngle (s : ContinuousRotationServo) (rad : ℝ) :
    ContinuousRotationServo :=
  crs_startMovingTo s (crs_radiansToPosition rad)

/-- Modelled from the spec: `crs_getPos` returns the current estimated
position (header doc comment at lines 113-119; body absent from src). -/
def crs_getPos (s : ContinuousRotationServo) : Int :=
  s.position

/-- Modelled from the spec: convert a raw potentiometer reading to a
logical position via zeroValue (spec section 4.1; the counts-per-unit
scale factor is an unspecified float and is abstracted to 1). -/
def crs_potToLogical (s : ContinuousRotationServo) (pot : Int) : Int :=
  pot - s.zeroValue

/-- Modelled from the spec: the per-step position estimate blends the
potentiometer reading with the open-loop estimate
`position + vel * ms` at the fixed 3:1 weight favoring the sensor
(spec section 4.1). -/
def crs_updatedPosition (s : ContinuousRotationServo) (pot ms : Int) : Int :=
  (3 * crs_potToLogical s pot + (s.position + s.targetVel * ms)) / 4

/-- Modelled from the spec: `crs_step` updates the position estimate
and, when a movement is active and the new position is within one
tolerance unit of the target or the sign of (target - position) has
flipped from the command sign, commands velocity 0 and invokes
`crs_onGoalReached` (spec section 4.1; body absent from src).  The
returned Bool reports whether the `crs_onGoalReached` hook fired. -/
def crs_step (s : ContinuousRotationServo) (pot ms : Int) :
    ContinuousRotationServo × Bool :=
  if s.calibrated then
    let newPos := crs_updatedPosition s pot ms
    if s.active = true ∧
        ((s.targetPosition - newPos).natAbs ≤ CRS_TOLERANCE ∨
          Int.sign (s.targetPosition - newPos) * s.commandSign < 0) then
      ({ s with position := newPos, targetVel := 0, active := false }, true)
    else
      ({ s with position := newPos }, false)
  else (s, false)

/- Nonvolatile persistence (spec section 6): a CRS slot is a fixed-size
   record [magic byte, zeroValue as int16, position as int32,
   countsPerUnit as the 4 bytes of a float32, xor checksum]. -/

/-- Modelled from the spec: the magic byte of a CRS calibration slot
(value unspecified by the spec; any fixed byte serves). -/
def CRS_CAL_MAGIC : Nat := 165

/-- Little-endian two-byte encoding of an int16 value in two's
complement. -/
def int16ToBytes (z : Int) : List Nat :=
  [(z % 65536).toNat % 256, (z % 65536).toNat / 256]

/-- Little-endian four-byte encoding of an int32 value in two's
complement. -/
def int32ToBytes (p : Int) : List Nat :=
  [(p % 4294967296).toNat % 256,
   (p % 4294967296).toNat / 256 % 256,
   (p % 4294967296).toNat / 65536 % 256,
   (p % 4294967296).toNat / 16777216 % 256]

/-- Little-endian four-byte encoding of a 32-bit pattern (used for the
float32 counts-per-unit field, carried as its bit pattern). -/
def word32ToBytes (c : Nat) : List Nat :=
  [c % 256, c / 256 % 256, c / 65536 % 256, c / 16777216 % 256]

/-- One-byte xor checksum over a byte list (spec section 6). -/
def xorChecksum (bs : List Nat) : Nat :=
  bs.foldl (fun a b => a ^^^ b) 0

/-- Modelled from the spec: the checksummed payload of a CRS slot. -/
def crs_calPayload (z p : Int) (c : Nat) : List Nat :=
  CRS_CAL_MAGIC :: (int16ToBytes z ++ int32ToBytes p ++ word32ToBytes c)

/-- Modelled from the spec: the full persisted CRS slot record
(payload plus its xor checksum byte, spec section 6). -/
def crs_calRecord (z p : Int) (c : Nat) : List Nat :=
  crs_calPayload z p c ++ [xorChecksum (crs_calPayload z p c)]

/-- Decode two little-endian bytes as a two's complement int16. -/
def bytesToInt16 (b0 b1 : Nat) : Int :=
  if b0 + 256 * b1 < 32768 then ((b0 + 256 * b1 : Nat) : Int)
  else ((b0 + 256 * b1 : Nat) : Int) - 65536

/-- Decode four little-endian bytes as a two's complement int32. -/
def bytesToInt32 (b0 b1 b2 b3 : Nat) : Int :=
  if b0 + 256 * b1 + 65536 * b2 + 16777216 * b3 < 2147483648 then
    ((b0 + 256 * b1 + 65536 * b2 + 16777216 * b3 : Nat) : Int)
  else ((b0 + 256 * b1 + 65536 * b2 + 16777216 * b3 : Nat) : Int) - 4294967296

/-- Modelled from the spec: decode a CRS slot record, checking length,
magic byte and xor checksum; a failed check yields none (spec section
6: "a failed checksum forces the uncalibrated error state"). -/
def crs_decodeCalRecord (bs : List Nat) : Option (Int × Int × Nat) :=
  match bs with
  | [m, z0, z1, p0, p1, p2, p3, c0, c1, c2, c3, ck] =>
    if m = CRS_CAL_MAGIC ∧
        xorChecksum [m, z0, z1, p0, p1, p2, p3, c0, c1, c2, c3] = ck then
      some (bytesToInt16 z0 z1, bytesToInt32 p0 p1 p2 p3,
            c0 + 256 * c1 + 65536 * c2 + 16777216 * c3)
    else none
  | _ => none

/-- Modelled from the spec: the in-memory servo state produced by
`crs_init` once calibration data is known: runtime command fields are
reset, the fault flag is clear. -/
def crs_initialState (controlLine potLine z p : Int) (c : Nat) (cal : Bool) :
    ContinuousRotationServo :=
  { controlLine := controlLine, potLine := potLine, zeroValue := z, position := p,
    targetPosition := 0, targetVel := 0, countsPerUnitBits := c, commandSign := 0,
    active := false, calibrated := cal, fault := false }

/-- Modelled from the spec: `crs_save_` writes the servo's zeroValue,
position and calibration constant to its nonvolatile slot (header doc
comment at lines 146-152; body absent from src). -/
def crs_save_ (s : ContinuousRotationServo) : List Nat :=
  crs_calRecord s.zeroValue s.position s.countsPerUnitBits

/-- Modelled from the spec: `crs_loadCalConstants_` reads the slot; on
a good checksum it restores {zeroValue, position, counts-per-unit}, on
a failed checksum the servo enters the uncalibrated state (spec
sections 4.1 and 7; body absent from src). -/
def crs_loadCalConstants_ (s : ContinuousRotationServo) (slot : List Nat) :
    ContinuousRotationServo :=
  match crs_decodeCalRecord slot with
  | some (z, p, c) => crs_initialState s.controlLine s.potLine z p c true
  | none => crs_initialState s.controlLine s.potLine 0 0 0 false

/-- Modelled from the spec: `crs_calibrate_` drives the servo over its
full swing, samples the potentiometer extremes, takes their midpoint
as zeroValue and resets position to 0 (spec section 4.1; body absent
from src).  The measured extremes and the derived counts-per-unit bit
pattern are inputs of the model. -/
def crs_calibrate_ (s : ContinuousRotationServo) (potLow potHigh : Int) (c : Nat) :
    ContinuousRotationServo :=
  crs_initialState s.controlLine s.potLine ((potLow + potHigh) / 2) 0 c true

/-- Modelled from the spec: `crs_init` either calibrates and persists
the result to the slot, or restores state from the slot
(aquariumlogic.h lines 55-63; body absent from src).  Returns the new
in-memory state and the slot contents after the call. -/
def crs_init (s : ContinuousRotationServo) (calibrate : Bool) (slot : List Nat)
    (potLow potHigh : Int) (c : Nat) : ContinuousRotationServo × List Nat :=
  if calibrate then
    let s1 := crs_calibrate_ s potLow potHigh c
    (s1, crs_save_ s1)
  else (crs_loadCalConstants_ s slot, slot)

/- Piezo sensors and the piezo sensor group (structs at
   aquariumlogic.h lines 192-195 and 405-409).  Raw analog readings
   enter the model as explicit inputs (a reading per sensor id for the
   group scan; a single ambient sample for `piezo_isFired`, whose
   declaration at line 222 takes no sensor id). -/

/-- Modelled from the spec: `piezo_isFired` returns 0 when the sensed
reading is at or below the tap threshold and the raw positive reading
otherwise (header doc comment at lines 215-221).  The declaration at
line 222 takes no sensor id, so the model's only input is the sensed
reading itself. -/
def piezo_isFired (sensedReading : Int) : Int :=
  if PIEZO_MIN_TAP_VAL < sensedReading then sensedReading else 0

/-- Wrapper recording the sensor id a caller intends to query; the
declared `piezo_isFired` cannot receive it, so it is ignored. -/
def piezo_isFired_calledFor (_intendedId : Int) (sensedReading : Int) : Int :=
  piezo_isFired sensedReading

/-- Modelled from the spec: ordered membership of a piezo sensor group
(struct at aquariumlogic.h lines 405-409; the C `numSensors` count and
id array become one Lean list in insertion order). -/
structure PiezoSensorGroup where
  sensorNums : List Int
deriving DecidableEq

/-- Modelled from the spec: `pse_addToSensorList` appends a sensor id,
preserving insertion order (body absent from src). -/
def pse_addToSensorList (g : PiezoSensorGroup) (sensorID : Int) : PiezoSensorGroup :=
  { g with sensorNums := g.sensorNums ++ [sensorID] }

/-- Modelled from the spec: scan a member list in order and return the
first sensor id whose raw reading exceeds PIEZO_MIN_TAP_VAL, or NONE
when no member fires (spec section 4.6). -/
def pse_scan (read : Int → Int) : List Int → Int
  | [] => NONE
  | sid :: rest => if PIEZO_MIN_TAP_VAL < read sid then sid else pse_scan read rest

/-- Modelled from the spec: `pse_getTapped` scans the group's members
in insertion order (spec section 4.6; body absent from src).  `read`
gives each member sensor's raw analog reading. -/
def pse_getTapped (g : PiezoSensorGroup) (read : Int → Int) : Int :=
  pse_scan read g.sensorNums

/-- Modelled from the spec: `ls_isLight` is true iff the raw analog
reading exceeds MIN_LIGHT_VAL (spec section 4.7; body absent from
src). -/
def ls_isLight (reading : Int) : Bool :=
  MIN_LIGHT_VAL < reading

/- Fish (struct at aquariumlogic.h lines 336-355).  The model keeps the
   struct's integer fields, adds the current axis positions (in the C
   code these live in the axis servos the fish references by id) and
   the pending-axis arrival counter plus goal-reached latch of spec
   section 4.3.  The float speed-portion fields are pure functions of
   the stored start and target coordinates, so the model derives them
   (see fish_xSpeedPortion below) rather than storing them. -/

/-- Modelled from the spec: fish state (struct fields from
aquariumlogic.h lines 336-355; curX/curY/curZ stand for the positions
of the three axis servos the struct references by id, and pendingAxes
is the per-fish pending axis counter of spec section 4.3). -/
structure Fish where
  xServo : Int
  yServo : Int
  zServo : Int
  thetaServo : Int
  velocity : Int
  targetX : Int
  targetY : Int
  targetZ : Int
  startX : Int
  startY : Int
  startZ : Int
  startMS : Int
  curX : Int
  curY : Int
  curZ : Int
  subStepsLeftToGoal : Nat
  pendingAxes : Nat
  goalReached : Bool
deriving DecidableEq

/-- Modelled from the spec: `fish_goToNextInternalGoal_` interpolates
between start and final goal at fraction
(SUBSTEPS - subStepsLeftToGoal + 1) / SUBSTEPS, commands each axis to
its sub-target and re-arms the three pending axis arrivals (spec
section 4.3; body absent from src).  Returns the new state and the
(x, y, z) sub-targets commanded to the axis servos. -/
def fish_goToNextInternalGoal_ (f : Fish) : Fish × (Int × Int × Int) :=
  let k : Int := (FISH_SUB_STEPS_TO_GOAL : Int) - (f.subStepsLeftToGoal : Int) + 1
  let tx := f.startX + (f.targetX - f.startX) * k / (FISH_SUB_STEPS_TO_GOAL : Int)
  let ty := f.startY + (f.targetY - f.startY) * k / (FISH_SUB_STEPS_TO_GOAL : Int)
  let tz := f.startZ + (f.targetZ - f.startZ) * k / (FISH_SUB_STEPS_TO_GOAL : Int)
  ({ f with pendingAxes := 3 }, (tx, ty, tz))

/-- Modelled from the spec: `fish_goTo` records the goal, captures the
current position as the start, arms SUBSTEPS sub-goals and issues the
first sub-goal command (spec section 4.3; body absent from src).
Returns the new state and the first sub-goal's axis targets. -/
def fish_goTo (f : Fish) (x y z : Int) : Fish × (Int × Int × Int) :=
  fish_goToNextInternalGoal_
    { f with targetX := x, targetY := y, targetZ := z,
             startX := f.curX, startY := f.curY, startZ := f.curZ,
             subStepsLeftToGoal := FISH_SUB_STEPS_TO_GOAL, goalReached := false }

/-- Modelled from the spec: `fish_onGoalReached` decrements the pending
axis counter; when all three axes have arrived, `subStepsLeftToGoal`
decreases by one and, if nonzero, the next sub-goal is commanded, else
the overall goal is declared reached (spec section 4.3; body absent
from src).  Returns the new state and the sub-goal command issued, if
any. -/
def fish_onGoalReached (f : Fish) : Fish × Option (Int × Int × Int) :=
  let p := f.pendingAxes - 1
  if p = 0 then
    let left := f.subStepsLeftToGoal - 1
    if left = 0 then
      ({ f with pendingAxes := 0, subStepsLeftToGoal := 0, goalReached := true }, none)
    else
      let r := fish_goToNextInternalGoal_ { f with pendingAxes := 0, subStepsLeftToGoal := left }
      (r.1, some r.2)
  else ({ f with pendingAxes := p }, none)

/-- Drive `fish_onGoalReached` for a given number of axis arrivals,
collecting every sub-goal command issued along the way. -/
def fish_runArrivals : Fish → Nat → Fish × List (Int × Int × Int)
  | f, 0 => (f, [])
  | f, n + 1 =>
    let r := fish_onGoalReached f
    let r2 := fish_runArrivals r.1 n
    (r2.1, r.2.toList ++ r2.2)

/-- A fish goal is active after `fish_goTo` and before the overall goal
is declared reached (spec section 3 invariants). -/
def fish_goalActive (f : Fish) : Prop :=
  f.subStepsLeftToGoal ≠ 0 ∧ f.goalReached = false

/-- Modelled from the spec: the x direction share of a fish movement,
a non-negative unit-vector component derived from the captured start
and the goal (spec sections 3 and 4.3; in the C struct this is the
stored field xSpeedPortion, a pure function of the stored start and
target coordinates). -/
noncomputable def fish_xSpeedPortion (f : Fish) : ℝ :=
  |((f.targetX - f.startX : Int) : ℝ)| /
    Real.sqrt (((f.targetX - f.startX : Int) : ℝ) ^ 2 +
      ((f.targetY - f.startY : Int) : ℝ) ^ 2 + ((f.targetZ - f.startZ : Int) : ℝ) ^ 2)

/-- Modelled from the spec: the y direction share, as for
`fish_xSpeedPortion`. -/
noncomputable def fish_ySpeedPortion (f : Fish) : ℝ :=
  |((f.targetY - f.startY : Int) : ℝ)| /
    Real.sqrt (((f.targetX - f.startX : Int) : ℝ) ^ 2 +
      ((f.targetY - f.startY : Int) : ℝ) ^ 2 + ((f.targetZ - f.startZ : Int) : ℝ) ^ 2)

/-- Modelled from the spec: the z direction share, as for
`fish_xSpeedPortion`. -/
noncomputable def fish_zSpeedPortion (f : Fish) : ℝ :=
  |((f.targetZ - f.startZ : Int) : ℝ)| /
    Real.sqrt (((f.targetX - f.startX : Int) : ℝ) ^ 2 +
      ((f.targetY - f.startY : Int) : ℝ) ^ 2 + ((f.targetZ - f.startZ : Int) : ℝ) ^ 2)

/-- Fish state in the middle of a goal run: heading from the captured
current position toward (x, y, z) with `left` sub-goals remaining and
all three axis arrivals of the current sub-goal pending. -/
def fish_midGoalState (f : Fish) (x y z : Int) (left : Nat) : Fish :=
  { f with targetX := x, targetY := y, targetZ := z,
           startX := f.curX, startY := f.curY, startZ := f.curZ,
           subStepsLeftToGoal := left, pendingAxes := 3, goalReached := false }

/-- Fish state after the overall goal has been declared reached. -/
def fish_doneGoalState (f : Fish) (x y z : Int) : Fish :=
  { f with targetX := x, targetY := y, targetZ := z,
           startX := f.curX, startY := f.curY, startZ := f.curZ,
           subStepsLeftToGoal := 0, pendingAxes := 0, goalReached := true }

/-- The k-th sub-goal command of a goal run from the fish's captured
current position toward (x, y, z): linear interpolation at fraction
k / SUBSTEPS. -/
def fish_subGoalCommand (f : Fish) (x y z k : Int) : Int × Int × Int :=
  (f.curX + (x - f.curX) * k / 10,
   f.curY + (y - f.curY) * k / 10,
   f.curZ + (z - f.curZ) * k / 10)

/-- A concrete fish resting at the origin (axis servos 0, 1, 2 and
heading servo 3), used to evaluate the model at concrete inputs. -/
def fish_example : Fish :=
  { xServo := 0, yServo := 1, zServo := 2, thetaServo := 3, velocity := 0,
    targetX := 0, targetY := 0, targetZ := 0, startX := 0, startY := 0,
    startZ := 0, startMS := 0, curX := 0, curY := 0, curZ := 0,
    subStepsLeftToGoal := 0, pendingAxes := 0, goalReached := false }

/- Aquarium (struct at aquariumlogic.h lines 439-445).  The model
   flattens the fish / jellyfish id indirection into the referenced
   instances and adds the phase of spec section 4.5; the light reading
   enters `aquarium_longStep` as an explicit input. -/

/-- The aquarium phase of spec section 4.5. -/
inductive AquariumPhase where
  | idleDark
  | activeLight
  | reactingTap
deriving DecidableEq

/-- Modelled from the spec: aquarium state (struct at aquariumlogic.h
lines 439-445, with the phase of spec section 4.5 and the referenced
fish and jellyfish instances held directly). -/
structure AquariumState where
  fish : Fish
  jellyfish : Jellyfish
  phase : AquariumPhase
deriving DecidableEq

/-- Modelled from the spec: the default roam position a fish is sent to
on the dark-to-light transition (spec section 4.5; the coordinate value
is unspecified, any fixed point serves). -/
def AQUARIUM_DEFAULT_ROAM : Int × Int × Int := (0, 0, 0)

/-- Modelled from the spec: `aquarium_longStep` polls the light sensor
and drives the phase machine: in IDLE_DARK a light reading transitions
to ACTIVE_LIGHT, lowers the jellyfish and issues a `fish_goTo` to the
default roam position; in ACTIVE_LIGHT or REACTING_TAP a dark reading
raises the jellyfish, cancels fish motion by a `fish_goTo` to the
current position and returns to IDLE_DARK (spec section 4.5; body
absent from src).  Returns the new state and the target of the
`fish_goTo` issued, if any. -/
def aquarium_longStep (a : AquariumState) (lightReading : Int) :
    AquariumState × Option (Int × Int × Int) :=
  match a.phase with
  | AquariumPhase.idleDark =>
    if ls_isLight lightReading then
      ({ a with phase := AquariumPhase.activeLight,
                jellyfish := jellyfish_lower a.jellyfish,
                fish := (fish_goTo a.fish AQUARIUM_DEFAULT_ROAM.1
                  AQUARIUM_DEFAULT_ROAM.2.1 AQUARIUM_DEFAULT_ROAM.2.2).1 },
        some AQUARIUM_DEFAULT_ROAM)
    else (a, none)
  | AquariumPhase.activeLight =>
    if ls_isLight lightReading then (a, none)
    else
      ({ a with phase := AquariumPhase.idleDark,
                jellyfish := jellyfish_raise a.jellyfish,
                fish := (fish_goTo a.fish a.fish.curX a.fish.curY a.fish.curZ).1 },
        some (a.fish.curX, a.fish.curY, a.fish.curZ))
  | AquariumPhase.reactingTap =>
    if ls_isLight lightReading then (a, none)
    else
      ({ a with phase := AquariumPhase.idleDark,
                jellyfish := jellyfish_raise a.jellyfish,
                fish := (fish_goTo a.fish a.fish.curX a.fish.curY a.fish.curZ).1 },
        some (a.fish.curX, a.fish.curY, a.fish.curZ))

/- Helper lemmas (shared; not tied to any one claim). -/

/-- Applying any raise/lower operation leaves the jellyfish coupled. -/
theorem jellyfish_applyOp_coupled (j : Jellyfish) (op : JellyfishOp) :
    jellyfish_coupled (jellyfish_applyOp j op) := by
  cases op <;>
    simp [jellyfish_applyOp, jellyfish_lower, jellyfish_raise, jellyfish_coupled,
      lrs_setAngle, led_turnOn, led_turnOff, JELLYFISH_LOWERED_ANGLE,
      JELLYFISH_RAISED_ANGLE]

/-- A coupled jellyfish stays coupled under any operation sequence. -/
theorem jellyfish_applyOps_coupled (j : Jellyfish) (ops : List JellyfishOp)
    (h : jellyfish_coupled j) : jellyfish_coupled (jellyfish_applyOps j ops) := by
  induction ops generalizing j with
  | nil => exact h
  | cons op rest ih =>
    exact ih (jellyfish_applyOp j op) (jellyfish_applyOp_coupled j op)

/-- Claim C6: `jellyfish_lower` sets the servo to
JELLYFISH_LOWERED_ANGLE = 180 and turns the LED on, `jellyfish_raise`
sets the servo to JELLYFISH_RAISED_ANGLE = 0 and turns the LED off,
and after any sequence of raise/lower operations a jellyfish is in the
lowered posture iff its LED is on. -/
theorem jellyfish_lower_raise_led_coupling :
    (∀ j : Jellyfish, (jellyfish_lower j).servo.angle = JELLYFISH_LOWERED_ANGLE ∧
      (jellyfish_lower j).led.isOn = true) ∧
    (∀ j : Jellyfish, (jellyfish_raise j).servo.angle = JELLYFISH_RAISED_ANGLE ∧
      (jellyfish_raise j).led.isOn = false) ∧
    (∀ (j : Jellyfish) (ops : List JellyfishOp), jellyfish_coupled j →
      jellyfish_coupled (jellyfish_applyOps j ops)) := by
  refine ⟨?_, ?_, ?_⟩
  · intro j
    simp [jellyfish_lower, lrs_setAngle, led_turnOn]
  · intro j
    simp [jellyfish_raise, lrs_setAngle, led_turnOff]
  · intro j ops h
    exact jellyfish_applyOps_coupled j ops h

/-- Witness for claim C6: the coupling hypothesis is satisfiable; a
raised, unlit jellyfish stays coupled through a lower-raise-lower
sequence. -/
theorem jellyfish_lower_raise_led_coupling_witness :
    jellyfish_coupled ⟨⟨0⟩, ⟨false⟩⟩ ∧
    jellyfish_coupled (jellyfish_applyOps ⟨⟨0⟩, ⟨false⟩⟩
      [JellyfishOp.lower, JellyfishOp.raise, JellyfishOp.lower]) :=
  ⟨by decide, jellyfish_lower_raise_led_coupling.2.2 ⟨⟨0⟩, ⟨false⟩⟩
    [JellyfishOp.lower, JellyfishOp.raise, JellyfishOp.lower] (by decide)⟩

/-- Claim C9: on a calibrated servo, `crs_startMovingTo` sets the
targetPosition field to the given value and commands a velocity equal
to sign(targetPosition - position) times the absolute value of the
servo's targetVel, via `crs_setVelocity`. -/
theorem crs_startMovingTo_sets_target_and_velocity
    (s : ContinuousRotationServo) (target : Int) (hc : s.calibrated = true) :
    (crs_startMovingTo s target).targetPosition = target ∧
    (crs_startMovingTo s target).targetVel =
      Int.sign (target - s.position) * (s.targetVel.natAbs : Int) ∧
    crs_startMovingTo s target =
      crs_setVelocity
        { s with targetPosition := target,
                 commandSign := Int.sign (target - s.position), active := true }
        (Int.sign (target - s.position) * (s.targetVel.natAbs : Int)) := by
  simp [crs_startMovingTo, crs_setVelocity, hc]

/-- Witness for claim C9 at a concrete servo: target 50 from position
10 with speed magnitude 7 commands velocity 1 * 7. -/
theorem crs_startMovingTo_sets_target_and_velocity_witness :
    ({ controlLine := 1, potLine := 2, zeroValue := 0, position := 10,
       targetPosition := 0, targetVel := -7, countsPerUnitBits := 0,
       commandSign := 0, active := false, calibrated := true, fault := false } :
        ContinuousRotationServo).calibrated = true ∧
    (crs_startMovingTo
      { controlLine := 1, potLine := 2, zeroValue := 0, position := 10,
        targetPosition := 0, targetVel := -7, countsPerUnitBits := 0,
        commandSign := 0, active := false, calibrated := true, fault := false }
      50).targetPosition = 50 :=
  ⟨rfl, (crs_startMovingTo_sets_target_and_velocity _ 50 rfl).1⟩

/-- Claim C8: on an uncalibrated servo, every motion command
(`crs_startMovingTo`, `crs_startMovingToDegrees`,
`crs_startMovingToAngle`, `crs_setVelocity`) leaves the state unchanged
except for raising the per-servo fault flag, and `crs_getPos` returns
the last known position (zero at a fresh uncalibrated init). -/
theorem crs_uncalibrated_commands_refused
    (s : ContinuousRotationServo) (t v : Int) (deg rad : ℝ)
    (hc : s.calibrated = false) :
    crs_startMovingTo s t = { s with fault := true } ∧
    crs_startMovingToDegrees s deg = { s with fault := true } ∧
    crs_startMovingToAngle s rad = { s with fault := true } ∧
    crs_setVelocity s v = { s with fault := true } ∧
    crs_getPos (crs_startMovingTo s t) = s.position ∧
    crs_getPos s = s.position ∧
    crs_getPos (crs_initialState s.controlLine s.potLine 0 0 0 false) = 0 := by
  refine ⟨?_, ?_, ?_, ?_, ?_, rfl, rfl⟩ <;>
    simp [crs_startMovingTo, crs_startMovingToDegrees, crs_startMovingToAngle,
      crs_setVelocity, crs_getPos, hc]

/-- Witness for claim C8 at a concrete uncalibrated servo. -/
theorem crs_uncalibrated_commands_refused_witness :
    ({ controlLine := 1, potLine := 2, zeroValue := 5, position := 42,
       targetPosition := 0, targetVel := 3, countsPerUnitBits := 0,
       commandSign := 0, active := false, calibrated := false, fault := false } :
        ContinuousRotationServo).calibrated = false ∧
    crs_startMovingTo
      { controlLine := 1, potLine := 2, zeroValue := 5, position := 42,
        targetPosition := 0, targetVel := 3, countsPerUnitBits := 0,
        commandSign := 0, active := false, calibrated := false, fault := false } 9 =
      { controlLine := 1, potLine := 2, zeroValue := 5, position := 42,
        targetPosition := 0, targetVel := 3, countsPerUnitBits := 0,
        commandSign := 0, active := false, calibrated := false, fault := true } :=
  ⟨rfl, (crs_uncalibrated_commands_refused _ 9 0 0 0 rfl).1⟩

/-- Claim C10: `piezo_isFired` takes no sensor-id argument, so its
result is independent of which sensor the caller intends to query; it
returns 0 exactly when the sensed reading does not register a tap
(reading at or below PIEZO_MIN_TAP_VAL) and the raw positive analog
reading otherwise. -/
theorem piezo_isFired_ignores_intended_sensor (r : Int) :
    (∀ idA idB : Int, piezo_isFired_calledFor idA r = piezo_isFired_calledFor idB r) ∧
    (piezo_isFired r = 0 ↔ r ≤ PIEZO_MIN_TAP_VAL) ∧
    (PIEZO_MIN_TAP_VAL < r → piezo_isFired r = r ∧ 0 < piezo_isFired r) := by
  refine ⟨fun idA idB => rfl, ?_, ?_⟩
  · unfold piezo_isFired PIEZO_MIN_TAP_VAL
    split <;> omega
  · intro h
    unfold piezo_isFired
    rw [if_pos h]
    exact ⟨rfl, lt_trans (by norm_num [PIEZO_MIN_TAP_VAL]) h⟩

/-- Witness for claim C10: a reading of 80 fires and is returned raw. -/
theorem piezo_isFired_ignores_intended_sensor_witness :
    PIEZO_MIN_TAP_VAL < 80 ∧ piezo_isFired 80 = 80 ∧ 0 < piezo_isFired 80 :=
  ⟨by decide, (piezo_isFired_ignores_intended_sensor 80).2.2 (by decide)⟩

/-- Scanning a list of nonnegative ids yields NONE iff no member's
reading exceeds the tap threshold. -/
theorem pse_scan_eq_none_iff (read : Int → Int) (l : List Int)
    (hids : ∀ sid ∈ l, 0 ≤ sid) :
    (pse_scan read l = NONE ↔ ∀ sid ∈ l, read sid ≤ PIEZO_MIN_TAP_VAL) := by
  induction l with
  | nil => simp [pse_scan]
  | cons sid rest ih =>
    have hsid : 0 ≤ sid := hids sid (List.mem_cons_self sid rest)
    have hrest := ih (fun x hx => hids x (List.mem_cons_of_mem sid hx))
    by_cases hfire : PIEZO_MIN_TAP_VAL < read sid
    · simp only [pse_scan, if_pos hfire]
      constructor
      · intro h
        exfalso
        unfold NONE at h
        omega
      · intro h
        exact absurd (h sid (List.mem_cons_self sid rest)) (not_le.mpr hfire)
    · simp only [pse_scan, if_neg hfire]
      rw [hrest]
      constructor
      · intro h x hx
        rcases List.mem_cons.mp hx with hx1 | hx2
        · subst hx1
          exact not_lt.mp hfire
        · exact h x hx2
      · intro h x hx
        exact h x (List.mem_cons_of_mem sid hx)

/-- Scanning returns the first firing member: any decomposition into a
non-firing prefix, a firing member and a tail scans to that member. -/
theorem pse_scan_first (read : Int → Int) (l1 : List Int) (sid : Int) (l2 : List Int)
    (hquiet : ∀ x ∈ l1, read x ≤ PIEZO_MIN_TAP_VAL)
    (hfire : PIEZO_MIN_TAP_VAL < read sid) :
    pse_scan read (l1 ++ sid :: l2) = sid := by
  induction l1 with
  | nil => simp [pse_scan, hfire]
  | cons y rest ih =>
    have hy : ¬ PIEZO_MIN_TAP_VAL < read y :=
      not_lt.mpr (hquiet y (List.mem_cons_self y rest))
    simp only [List.cons_append, pse_scan, if_neg hy]
    exact ih (fun x hx => hquiet x (List.mem_cons_of_mem y hx))

/-- Claim C4: `pse_getTapped` returns NONE = -1 iff every member
sensor's raw reading is at or below PIEZO_MIN_TAP_VAL = 50, and
otherwise returns the first member in insertion order whose raw
reading exceeds 50 (member ids are nonnegative, per the data model of
spec section 3). -/
theorem pse_getTapped_none_iff_and_first
    (g : PiezoSensorGroup) (read : Int → Int)
    (hids : ∀ sid ∈ g.sensorNums, 0 ≤ sid) :
    (pse_getTapped g read = NONE ↔
      ∀ sid ∈ g.sensorNums, read sid ≤ PIEZO_MIN_TAP_VAL) ∧
    (∀ (l1 : List Int) (sid : Int) (l2 : List Int),
      g.sensorNums = l1 ++ sid :: l2 →
      (∀ x ∈ l1, read x ≤ PIEZO_MIN_TAP_VAL) →
      PIEZO_MIN_TAP_VAL < read sid →
      pse_getTapped g read = sid) := by
  constructor
  · exact pse_scan_eq_none_iff read g.sensorNums hids
  · intro l1 sid l2 hdecomp hquiet hfire
    unfold pse_getTapped
    rw [hdecomp]
    exact pse_scan_first read l1 sid l2 hquiet hfire

/-- Witness for claim C4: in the group [0, 1, 2] with readings 10, 80,
90, the scan does not return NONE and returns sensor 1, the first
member over the threshold. -/
theorem pse_getTapped_none_iff_and_first_witness :
    (∀ sid ∈ (⟨[0, 1, 2]⟩ : PiezoSensorGroup).sensorNums, 0 ≤ sid) ∧
    pse_getTapped ⟨[0, 1, 2]⟩
      (fun sid => if sid = 0 then 10 else if sid = 1 then 80 else 90) = 1 :=
  ⟨by decide,
    (pse_getTapped_none_iff_and_first ⟨[0, 1, 2]⟩
      (fun sid => if sid = 0 then 10 else if sid = 1 then 80 else 90)
      (by decide)).2 [0] 1 [2] rfl (by decide) (by decide)⟩

/-- One arrival peels off the front of a run. -/
theorem fish_runArrivals_succ (f : Fish) (n : Nat) :
    fish_runArrivals f (n + 1) =
      ((fish_runArrivals (fish_onGoalReached f).1 n).1,
        (fish_onGoalReached f).2.toList ++ (fish_runArrivals (fish_onGoalReached f).1 n).2) :=
  rfl

/-- A run of m + n arrivals is a run of m followed by a run of n, with
the issued commands concatenated. -/
theorem fish_runArrivals_add (f : Fish) (m n : Nat) :
    fish_runArrivals f (m + n) =
      ((fish_runArrivals (fish_runArrivals f m).1 n).1,
        (fish_runArrivals f m).2 ++ (fish_runArrivals (fish_runArrivals f m).1 n).2) := by
  induction m generalizing f with
  | zero => simp [fish_runArrivals]
  | succ m ih =>
    have e : m + 1 + n = (m + n) + 1 := by omega
    rw [e, fish_runArrivals_succ, fish_runArrivals_succ, ih]
    simp [List.append_assoc]

/-- Three axis arrivals with at least two sub-goals left complete the
current sub-goal and command the next one. -/
theorem fish_runArrivals_three_mid (f : Fish) (h3 : f.pendingAxes = 3)
    (hL : 2 ≤ f.subStepsLeftToGoal) :
    fish_runArrivals f 3 =
      ((fish_goToNextInternalGoal_
          { f with pendingAxes := 0, subStepsLeftToGoal := f.subStepsLeftToGoal - 1 }).1,
        [(fish_goToNextInternalGoal_
          { f with pendingAxes := 0, subStepsLeftToGoal := f.subStepsLeftToGoal - 1 }).2]) := by
  have hne : ¬ (f.subStepsLeftToGoal - 1 = 0) := by omega
  have e1 : fish_onGoalReached f = ({ f with pendingAxes := 2 }, none) := by
    simp [fish_onGoalReached, h3]
  have e2 : fish_onGoalReached { f with pendingAxes := 2 } =
      ({ f with pendingAxes := 1 }, none) := by
    simp [fish_onGoalReached]
  have e3 : fish_onGoalReached { f with pendingAxes := 1 } =
      ((fish_goToNextInternalGoal_
          { f with pendingAxes := 0, subStepsLeftToGoal := f.subStepsLeftToGoal - 1 }).1,
        some (fish_goToNextInternalGoal_
          { f with pendingAxes := 0, subStepsLeftToGoal := f.subStepsLeftToGoal - 1 }).2) := by
    simp [fish_onGoalReached, hne]
  rw [show (3 : Nat) = 2 + 1 from rfl, fish_runArrivals_succ, e1]
  rw [show (2 : Nat) = 1 + 1 from rfl, fish_runArrivals_succ, e2]
  rw [show (1 : Nat) = 0 + 1 from rfl, fish_runArrivals_succ, e3]
  simp [fish_runArrivals]

/-- Three axis arrivals on the last sub-goal declare the overall goal
reached and issue no further command. -/
theorem fish_runArrivals_three_last (f : Fish) (h3 : f.pendingAxes = 3)
    (hL : f.subStepsLeftToGoal = 1) :
    fish_runArrivals f 3 =
      ({ f with pendingAxes := 0, subStepsLeftToGoal := 0, goalReached := true }, []) := by
  have e1 : fish_onGoalReached f = ({ f with pendingAxes := 2 }, none) := by
    simp [fish_onGoalReached, h3]
  have e2 : fish_onGoalReached { f with pendingAxes := 2 } =
      ({ f with pendingAxes := 1 }, none) := by
    simp [fish_onGoalReached]
  have e3 : fish_onGoalReached { f with pendingAxes := 1 } =
      ({ f with pendingAxes := 0, subStepsLeftToGoal := 0, goalReached := true }, none) := by
    simp [fish_onGoalReached, hL]
  rw [show (3 : Nat) = 2 + 1 from rfl, fish_runArrivals_succ, e1]
  rw [show (2 : Nat) = 1 + 1 from rfl, fish_runArrivals_succ, e2]
  rw [show (1 : Nat) = 0 + 1 from rfl, fish_runArrivals_succ, e3]
  simp [fish_runArrivals]

/-- Claim C2: for every fish and every goal (x, y, z), the sub-goal
advancement driven by `fish_onGoalReached` (three axis arrivals per
sub-goal) terminates after exactly SUBSTEPS = 10 sub-goals — 29 axis
arrivals do not yet declare the goal reached, 30 do, and exactly 10
sub-goal commands are issued in total — and the final sub-goal
commands the x, y and z axis servos to targets exactly equal to x, y
and z. -/
theorem fish_goTo_ten_subgoals_exact (f : Fish) (x y z : Int) :
    (fish_runArrivals (fish_goTo f x y z).1 29).1.goalReached = false ∧
    (fish_runArrivals (fish_goTo f x y z).1 30).1.goalReached = true ∧
    ((fish_goTo f x y z).2 :: (fish_runArrivals (fish_goTo f x y z).1 30).2).length =
      FISH_SUB_STEPS_TO_GOAL ∧
    ((fish_goTo f x y z).2 :: (fish_runArrivals (fish_goTo f x y z).1 30).2).getLast? =
      some (x, y, z) := by
  have hgo : fish_goTo f x y z =
      (fish_midGoalState f x y z 10, fish_subGoalCommand f x y z 1) := by
    simp [fish_goTo, fish_goToNextInternalGoal_, fish_midGoalState, fish_subGoalCommand,
      FISH_SUB_STEPS_TO_GOAL]
  have s10 : fish_runArrivals (fish_midGoalState f x y z 10) 3 =
      (fish_midGoalState f x y z 9, [fish_subGoalCommand f x y z 2]) := by
    rw [fish_runArrivals_three_mid _ rfl (by norm_num [fish_midGoalState])]
    simp [fish_midGoalState, fish_goToNextInternalGoal_, fish_subGoalCommand,
      FISH_SUB_STEPS_TO_GOAL]
  have s9 : fish_runArrivals (fish_midGoalState f x y z 9) 3 =
      (fish_midGoalState f x y z 8, [fish_subGoalCommand f x y z 3]) := by
    rw [fish_runArrivals_three_mid _ rfl (by norm_num [fish_midGoalState])]
    simp [fish_midGoalState, fish_goToNextInternalGoal_, fish_subGoalCommand,
      FISH_SUB_STEPS_TO_GOAL]
  have s8 : fish_runArrivals (fish_midGoalState f x y z 8) 3 =
      (fish_midGoalState f x y z 7, [fish_subGoalCommand f x y z 4]) := by
    rw [fish_runArrivals_three_mid _ rfl (by norm_num [fish_midGoalState])]
    simp [fish_midGoalState, fish_goToNextInternalGoal_, fish_subGoalCommand,
      FISH_SUB_STEPS_TO_GOAL]
  have s7 : fish_runArrivals (fish_midGoalState f x y z 7) 3 =
      (fish_midGoalState f x y z 6, [fish_subGoalCommand f x y z 5]) := by
    rw [fish_runArrivals_three_mid _ rfl (by norm_num [fish_midGoalState])]
    simp [fish_midGoalState, fish_goToNextInternalGoal_, fish_subGoalCommand,
      FISH_SUB_STEPS_TO_GOAL]
  have s6 : fish_runArrivals (fish_midGoalState f x y z 6) 3 =
      (fish_midGoalState f x y z 5, [fish_subGoalCommand f x y z 6]) := by
    rw [fish_runArrivals_three_mid _ rfl (by norm_num [fish_midGoalState])]
    simp [fish_midGoalState, fish_goToNextInternalGoal_, fish_subGoalCommand,
      FISH_SUB_STEPS_TO_GOAL]
  have s5 : fish_runArrivals (fish_midGoalState f x y z 5) 3 =
      (fish_midGoalState f x y z 4, [fish_subGoalCommand f x y z 7]) := by
    rw [fish_runArrivals_three_mid _ rfl (by norm_num [fish_midGoalState])]
    simp [fish_midGoalState, fish_goToNextInternalGoal_, fish_subGoalCommand,
      FISH_SUB_STEPS_TO_GOAL]
  have s4 : fish_runArrivals (fish_midGoalState f x y z 4) 3 =
      (fish_midGoalState f x y z 3, [fish_subGoalCommand f x y z 8]) := by
    rw [fish_runArrivals_three_mid _ rfl (by norm_num [fish_midGoalState])]
    simp [fish_midGoalState, fish_goToNextInternalGoal_, fish_subGoalCommand,
      FISH_SUB_STEPS_TO_GOAL]
  have s3 : fish_runArrivals (fish_midGoalState f x y z 3) 3 =
      (fish_midGoalState f x y z 2, [fish_subGoalCommand f x y z 9]) := by
    rw [fish_runArrivals_three_mid _ rfl (by norm_num [fish_midGoalState])]
    simp [fish_midGoalState, fish_goToNextInternalGoal_, fish_subGoalCommand,
      FISH_SUB_STEPS_TO_GOAL]
  have s2 : fish_runArrivals (fish_midGoalState f x y z 2) 3 =
      (fish_midGoalState f x y z 1, [fish_subGoalCommand f x y z 10]) := by
    rw [fish_runArrivals_three_mid _ rfl (by norm_num [fish_midGoalState])]
    simp [fish_midGoalState, fish_goToNextInternalGoal_, fish_subGoalCommand,
      FISH_SUB_STEPS_TO_GOAL]
  have slast : fish_runArrivals (fish_midGoalState f x y z 1) 3 =
      (fish_doneGoalState f x y z, []) := by
    rw [fish_runArrivals_three_last _ rfl rfl]
    simp [fish_midGoalState, fish_doneGoalState]
  have v6 : fish_runArrivals (fish_midGoalState f x y z 10) 6 =
      (fish_midGoalState f x y z 8,
        [fish_subGoalCommand f x y z 2, fish_subGoalCommand f x y z 3]) := by
    rw [show (6 : Nat) = 3 + 3 from rfl, fish_runArrivals_add, s10]
    simp [s9]
  have v9 : fish_runArrivals (fish_midGoalState f x y z 10) 9 =
      (fish_midGoalState f x y z 7,
        [fish_subGoalCommand f x y z 2, fish_subGoalCommand f x y z 3,
         fish_subGoalCommand f x y z 4]) := by
    rw [show (9 : Nat) = 6 + 3 from rfl, fish_runArrivals_add, v6]
    simp [s8]
  have v12 : fish_runArrivals (fish_midGoalState f x y z 10) 12 =
      (fish_midGoalState f x y z 6,
        [fish_subGoalCommand f x y z 2, fish_subGoalCommand f x y z 3,
         fish_subGoalCommand f x y z 4, fish_subGoalCommand f x y z 5]) := by
    rw [show (12 : Nat) = 9 + 3 from rfl, fish_runArrivals_add, v9]
    simp [s7]
  have v15 : fish_runArrivals (fish_midGoalState f x y z 10) 15 =
      (fish_midGoalState f x y z 5,
        [fish_subGoalCommand f x y z 2, fish_subGoalCommand f x y z 3,
         fish_subGoalCommand f x y z 4, fish_subGoalCommand f x y z 5,
         fish_subGoalCommand f x y z 6]) := by
    rw [show (15 : Nat) = 12 + 3 from rfl, fish_runArrivals_add, v12]
    simp [s6]
  have v18 : fish_runArrivals (fish_midGoalState f x y z 10) 18 =
      (fish_midGoalState f x y z 4,
        [fish_subGoalCommand f x y z 2, fish_subGoalCommand f x y z 3,
         fish_subGoalCommand f x y z 4, fish_subGoalCommand f x y z 5,
         fish_subGoalCommand f x y z 6, fish_subGoalCommand f x y z 7]) := by
    rw [show (18 : Nat) = 15 + 3 from rfl, fish_runArrivals_add, v15]
    simp [s5]
  have v21 : fish_runArrivals (fish_midGoalState f x y z 10) 21 =
      (fish_midGoalState f x y z 3,
        [fish_subGoalCommand f x y z 2, fish_subGoalCommand f x y z 3,
         fish_subGoalCommand f x y z 4, fish_subGoalCommand f x y z 5,
         fish_subGoalCommand f x y z 6, fish_subGoalCommand f x y z 7,
         fish_subGoalCommand f x y z 8]) := by
    rw [show (21 : Nat) = 18 + 3 from rfl, fish_runArrivals_add, v18]
    simp [s4]
  have v24 : fish_runArrivals (fish_midGoalState f x y z 10) 24 =
      (fish_midGoalState f x y z 2,
        [fish_subGoalCommand f x y z 2, fish_subGoalCommand f x y z 3,
         fish_subGoalCommand f x y z 4, fish_subGoalCommand f x y z 5,
         fish_subGoalCommand f x y z 6, fish_subGoalCommand f x y z 7,
         fish_subGoalCommand f x y z 8, fish_subGoalCommand f x y z 9]) := by
    rw [show (24 : Nat) = 21 + 3 from rfl, fish_runArrivals_add, v21]
    simp [s3]
  have v27 : fish_runArrivals (fish_midGoalState f x y z 10) 27 =
      (fish_midGoalState f x y z 1,
        [fish_subGoalCommand f x y z 2, fish_subGoalCommand f x y z 3,
         fish_subGoalCommand f x y z 4, fish_subGoalCommand f x y z 5,
         fish_subGoalCommand f x y z 6, fish_subGoalCommand f x y z 7,
         fish_subGoalCommand f x y z 8, fish_subGoalCommand f x y z 9,
         fish_subGoalCommand f x y z 10]) := by
    rw [show (27 : Nat) = 24 + 3 from rfl, fish_runArrivals_add, v24]
    simp [s2]
  have v30 : fish_runArrivals (fish_midGoalState f x y z 10) 30 =
      (fish_doneGoalState f x y z,
        [fish_subGoalCommand f x y z 2, fish_subGoalCommand f x y z 3,
         fish_subGoalCommand f x y z 4, fish_subGoalCommand f x y z 5,
         fish_subGoalCommand f x y z 6, fish_subGoalCommand f x y z 7,
         fish_subGoalCommand f x y z 8, fish_subGoalCommand f x y z 9,
         fish_subGoalCommand f x y z 10]) := by
    rw [show (30 : Nat) = 27 + 3 from rfl, fish_runArrivals_add, v27]
    simp [slast]
  have w1 : fish_onGoalReached (fish_midGoalState f x y z 1) =
      ({ fish_midGoalState f x y z 1 with pendingAxes := 2 }, none) := by
    simp [fish_onGoalReached, fish_midGoalState]
  have w2 : fish_onGoalReached { fish_midGoalState f x y z 1 with pendingAxes := 2 } =
      ({ fish_midGoalState f x y z 1 with pendingAxes := 1 }, none) := by
    simp [fish_onGoalReached, fish_midGoalState]
  have w : fish_runArrivals (fish_midGoalState f x y z 1) 2 =
      ({ fish_midGoalState f x y z 1 with pendingAxes := 1 }, []) := by
    rw [show (2 : Nat) = 1 + 1 from rfl, fish_runArrivals_succ, w1]
    rw [show (1 : Nat) = 0 + 1 from rfl, fish_runArrivals_succ, w2]
    simp [fish_runArrivals]
  have v29 : (fish_runArrivals (fish_midGoalState f x y z 10) 29).1.goalReached = false := by
    rw [show (29 : Nat) = 27 + 2 from rfl, fish_runArrivals_add, v27]
    have hw2 : (fish_runArrivals (fish_midGoalState f x y z 1) 2).1.goalReached = false := by
      rw [w]
      simp [fish_midGoalState]
    simpa using hw2
  refine ⟨?_, ?_, ?_, ?_⟩
  · simp only [hgo]
    simpa using v29
  · simp only [hgo]
    simp [v30, fish_doneGoalState]
  · simp only [hgo]
    simp [v30, FISH_SUB_STEPS_TO_GOAL]
  · simp only [hgo]
    simp only [v30]
    simp [fish_subGoalCommand]

/-- Claim C3: on a calibrated servo with an active target, `crs_step`
commands velocity 0 and invokes `crs_onGoalReached` exactly when the
updated position is within one tolerance unit of targetPosition or the
sign of (targetPosition - position) has flipped from the command sign;
in all other cases the velocity is untouched and the hook does not
fire. -/
theorem crs_step_goal_detection (s : ContinuousRotationServo) (pot ms : Int)
    (hc : s.calibrated = true) (ha : s.active = true) :
    ((crs_step s pot ms).2 = true ↔
      ((s.targetPosition - crs_updatedPosition s pot ms).natAbs ≤ CRS_TOLERANCE ∨
        Int.sign (s.targetPosition - crs_updatedPosition s pot ms) * s.commandSign < 0)) ∧
    (((s.targetPosition - crs_updatedPosition s pot ms).natAbs ≤ CRS_TOLERANCE ∨
        Int.sign (s.targetPosition - crs_updatedPosition s pot ms) * s.commandSign < 0) →
      (crs_step s pot ms).1.targetVel = 0) ∧
    (¬ ((s.targetPosition - crs_updatedPosition s pot ms).natAbs ≤ CRS_TOLERANCE ∨
        Int.sign (s.targetPosition - crs_updatedPosition s pot ms) * s.commandSign < 0) →
      (crs_step s pot ms).1.targetVel = s.targetVel ∧ (crs_step s pot ms).2 = false) := by
  by_cases h : ((s.targetPosition - crs_updatedPosition s pot ms).natAbs ≤ CRS_TOLERANCE ∨
      Int.sign (s.targetPosition - crs_updatedPosition s pot ms) * s.commandSign < 0)
  · simp [crs_step, hc, ha, h]
  · simp [crs_step, hc, ha, h]

/-- Witness for claim C3: a calibrated active servo at position 0 with
target 1 arrives (distance 1 is within tolerance), so the step fires
the hook. -/
theorem crs_step_goal_detection_witness :
    ({ controlLine := 1, potLine := 2, zeroValue := 0, position := 0,
       targetPosition := 1, targetVel := 5, countsPerUnitBits := 0,
       commandSign := 1, active := true, calibrated := true, fault := false } :
        ContinuousRotationServo).calibrated = true ∧
    ({ controlLine := 1, potLine := 2, zeroValue := 0, position := 0,
       targetPosition := 1, targetVel := 5, countsPerUnitBits := 0,
       commandSign := 1, active := true, calibrated := true, fault := false } :
        ContinuousRotationServo).active = true ∧
    (crs_step
      { controlLine := 1, potLine := 2, zeroValue := 0, position := 0,
        targetPosition := 1, targetVel := 5, countsPerUnitBits := 0,
        commandSign := 1, active := true, calibrated := true, fault := false }
      1 0).2 = true :=
  ⟨rfl, rfl, (crs_step_goal_detection _ 1 0 rfl rfl).1.mpr (by decide)⟩

/-- Claim C1: with the aquarium in phase IDLE_DARK, a `longStep` whose
light sensor reading reports light moves the phase to ACTIVE_LIGHT,
lowers the jellyfish (servo to the lowered angle, LED on) and issues a
`fish_goTo` to the default roam position; a dark reading keeps the
state unchanged, so the phase stays IDLE_DARK and a raised jellyfish
stays raised. -/
theorem aquarium_longStep_idleDark (a : AquariumState) (r : Int)
    (hp : a.phase = AquariumPhase.idleDark) :
    (MIN_LIGHT_VAL < r →
      (aquarium_longStep a r).1.phase = AquariumPhase.activeLight ∧
      (aquarium_longStep a r).1.jellyfish = jellyfish_lower a.jellyfish ∧
      (aquarium_longStep a r).1.jellyfish.servo.angle = JELLYFISH_LOWERED_ANGLE ∧
      (aquarium_longStep a r).1.jellyfish.led.isOn = true ∧
      (aquarium_longStep a r).2 = some AQUARIUM_DEFAULT_ROAM) ∧
    (r ≤ MIN_LIGHT_VAL →
      (aquarium_longStep a r).1 = a ∧
      (aquarium_longStep a r).1.phase = AquariumPhase.idleDark ∧
      (aquarium_longStep a r).1.jellyfish = a.jellyfish ∧
      (a.jellyfish.servo.angle = JELLYFISH_RAISED_ANGLE →
        (aquarium_longStep a r).1.jellyfish.servo.angle = JELLYFISH_RAISED_ANGLE) ∧
      (aquarium_longStep a r).2 = none) := by
  constructor
  · intro h
    have hl : ls_isLight r = true := by
      simpa [ls_isLight] using h
    simp [aquarium_longStep, hp, hl, jellyfish_lower, lrs_setAngle, led_turnOn]
  · intro h
    have hl : ls_isLight r = false := by
      simp [ls_isLight]
      omega
    simp [aquarium_longStep, hp, hl]

/-- Witness for claim C1: a concrete IDLE_DARK aquarium and a light
reading of 150 transitions to ACTIVE_LIGHT. -/
theorem aquarium_longStep_idleDark_witness :
    ({ fish := { xServo := 0, yServo := 1, zServo := 2, thetaServo := 3,
                 velocity := 0, targetX := 0, targetY := 0, targetZ := 0,
                 startX := 0, startY := 0, startZ := 0, startMS := 0,
                 curX := 0, curY := 0, curZ := 0, subStepsLeftToGoal := 0,
                 pendingAxes := 0, goalReached := false },
       jellyfish := ⟨⟨0⟩, ⟨false⟩⟩, phase := AquariumPhase.idleDark } :
        AquariumState).phase = AquariumPhase.idleDark ∧
    MIN_LIGHT_VAL < (150 : Int) ∧
    (aquarium_longStep
      { fish := { xServo := 0, yServo := 1, zServo := 2, thetaServo := 3,
                  velocity := 0, targetX := 0, targetY := 0, targetZ := 0,
                  startX := 0, startY := 0, startZ := 0, startMS := 0,
                  curX := 0, curY := 0, curZ := 0, subStepsLeftToGoal := 0,
                  pendingAxes := 0, goalReached := false },
        jellyfish := ⟨⟨0⟩, ⟨false⟩⟩, phase := AquariumPhase.idleDark }
      150).1.phase = AquariumPhase.activeLight :=
  ⟨rfl, by decide, ((aquarium_longStep_idleDark _ 150 rfl).1 (by decide)).1⟩

/-- Two-byte two's complement round-trip for int16-ranged values. -/
theorem bytesToInt16_int16ToBytes (z : Int) (h1 : -32768 ≤ z) (h2 : z < 32768) :
    bytesToInt16 ((z % 65536).toNat % 256) ((z % 65536).toNat / 256) = z := by
  unfold bytesToInt16
  split <;> omega

/-- Four-byte two's complement round-trip for int32-ranged values. -/
theorem bytesToInt32_int32ToBytes (p : Int)
    (h1 : -2147483648 ≤ p) (h2 : p < 2147483648) :
    bytesToInt32 ((p % 4294967296).toNat % 256)
      ((p % 4294967296).toNat / 256 % 256)
      ((p % 4294967296).toNat / 65536 % 256)
      ((p % 4294967296).toNat / 16777216 % 256) = p := by
  unfold bytesToInt32
  split <;> omega

/-- Decoding an encoded calibration record returns the encoded fields
whenever they are in range. -/
theorem crs_decodeCalRecord_calRecord (z p : Int) (c : Nat)
    (hz1 : -32768 ≤ z) (hz2 : z < 32768)
    (hp1 : -2147483648 ≤ p) (hp2 : p < 2147483648)
    (hc : c < 4294967296) :
    crs_decodeCalRecord (crs_calRecord z p c) = some (z, p, c) := by
  unfold crs_calRecord crs_calPayload int16ToBytes int32ToBytes word32ToBytes
  simp only [List.cons_append, List.nil_append]
  simp only [crs_decodeCalRecord]
  rw [if_pos ⟨trivial, trivial⟩]
  rw [bytesToInt16_int16ToBytes z hz1 hz2, bytesToInt32_int32ToBytes p hp1 hp2]
  have hw : c % 256 + 256 * (c / 256 % 256) + 65536 * (c / 65536 % 256) +
      16777216 * (c / 16777216 % 256) = c := by
    omega
  rw [hw]

/-- Claim C7: after `crs_init(calibrate = true)`, reading the
nonvolatile slot decodes to exactly the servo fields that were saved,
re-encoding the decoded fields rewrites the identical record, and a
subsequent `crs_init(calibrate = false)` on that slot restores the
identical in-memory servo state. -/
theorem crs_init_calibration_roundtrip (s : ContinuousRotationServo)
    (potLow potHigh : Int) (c : Nat)
    (hz1 : -32768 ≤ (potLow + potHigh) / 2) (hz2 : (potLow + potHigh) / 2 < 32768)
    (hc : c < 4294967296) :
    crs_decodeCalRecord (crs_init s true [] potLow potHigh c).2 =
      some ((crs_init s true [] potLow potHigh c).1.zeroValue,
            (crs_init s true [] potLow potHigh c).1.position,
            (crs_init s true [] potLow potHigh c).1.countsPerUnitBits) ∧
    crs_calRecord (crs_init s true [] potLow potHigh c).1.zeroValue
        (crs_init s true [] potLow potHigh c).1.position
        (crs_init s true [] potLow potHigh c).1.countsPerUnitBits =
      (crs_init s true [] potLow potHigh c).2 ∧
    (crs_init s false (crs_init s true [] potLow potHigh c).2 0 0 0).1 =
      (crs_init s true [] potLow potHigh c).1 := by
  have hdec : crs_decodeCalRecord (crs_calRecord ((potLow + potHigh) / 2) 0 c) =
      some ((potLow + potHigh) / 2, 0, c) :=
    crs_decodeCalRecord_calRecord ((potLow + potHigh) / 2) 0 c hz1 hz2
      (by norm_num) (by norm_num) hc
  refine ⟨?_, ?_, ?_⟩
  · simpa [crs_init, crs_calibrate_, crs_save_, crs_initialState] using hdec
  · simp [crs_init, crs_calibrate_, crs_save_, crs_initialState]
  · simp [crs_init, crs_calibrate_, crs_save_, crs_loadCalConstants_, crs_initialState, hdec]

/-- Witness for claim C7: calibrating against potentiometer extremes
100 and 900 gives zeroValue 500, and the load after the save restores
the identical in-memory state. -/
theorem crs_init_calibration_roundtrip_witness :
    (-32768 ≤ ((100 : Int) + 900) / 2 ∧ ((100 : Int) + 900) / 2 < 32768 ∧
      (305419896 : Nat) < 4294967296) ∧
    (crs_init
        { controlLine := 1, potLine := 2, zeroValue := 0, position := 0,
          targetPosition := 0, targetVel := 0, countsPerUnitBits := 0,
          commandSign := 0, active := false, calibrated := false, fault := false }
        false
        (crs_init
          { controlLine := 1, potLine := 2, zeroValue := 0, position := 0,
            targetPosition := 0, targetVel := 0, countsPerUnitBits := 0,
            commandSign := 0, active := false, calibrated := false, fault := false }
          true [] 100 900 305419896).2 0 0 0).1 =
      (crs_init
        { controlLine := 1, potLine := 2, zeroValue := 0, position := 0,
          targetPosition := 0, targetVel := 0, countsPerUnitBits := 0,
          commandSign := 0, active := false, calibrated := false, fault := false }
        true [] 100 900 305419896).1 :=
  ⟨⟨by decide, by decide, by decide⟩,
    (crs_init_calibration_roundtrip _ 100 900 305419896
      (by decide) (by decide) (by decide)).2.2⟩

/-- Counterexample to claim C5 as stated: a `fish_goTo` to the fish's
current position leaves the goal active, yet the squares of the three
speed portions sum to 0, not to 1 within 1e-6 (there is no unit
direction for a zero 3-D delta; a float implementation yields NaN
here, and the model's convention yields 0). -/
theorem fish_speedPortions_claim_counterexample :
    fish_goalActive (fish_goTo fish_example 0 0 0).1 ∧
    ¬ (|fish_xSpeedPortion (fish_goTo fish_example 0 0 0).1 ^ 2 +
        fish_ySpeedPortion (fish_goTo fish_example 0 0 0).1 ^ 2 +
        fish_zSpeedPortion (fish_goTo fish_example 0 0 0).1 ^ 2 - 1| ≤
          1 / 1000000) := by
  have hx : fish_xSpeedPortion (fish_goTo fish_example 0 0 0).1 = 0 := by
    simp [fish_xSpeedPortion, fish_goTo, fish_goToNextInternalGoal_, fish_example]
  have hy : fish_ySpeedPortion (fish_goTo fish_example 0 0 0).1 = 0 := by
    simp [fish_ySpeedPortion, fish_goTo, fish_goToNextInternalGoal_, fish_example]
  have hz : fish_zSpeedPortion (fish_goTo fish_example 0 0 0).1 = 0 := by
    simp [fish_zSpeedPortion, fish_goTo, fish_goToNextInternalGoal_, fish_example]
  constructor
  · constructor
    · simp [fish_goTo, fish_goToNextInternalGoal_, fish_example, FISH_SUB_STEPS_TO_GOAL]
    · simp [fish_goTo, fish_goToNextInternalGoal_, fish_example]
  · rw [hx, hy, hz]
    norm_num

/-- Claim C5 (amended): whenever a fish goal is active and the goal
differs from the captured start position in at least one coordinate,
the three speed portions are non-negative and the sum of their squares
equals 1 exactly, hence lies within 1e-6 of 1. -/
theorem fish_speedPortions_unit_vector (f : Fish)
    (hg : fish_goalActive f)
    (hd : ¬ (f.targetX = f.startX ∧ f.targetY = f.startY ∧ f.targetZ = f.startZ)) :
    0 ≤ fish_xSpeedPortion f ∧ 0 ≤ fish_ySpeedPortion f ∧ 0 ≤ fish_zSpeedPortion f ∧
    |fish_xSpeedPortion f ^ 2 + fish_ySpeedPortion f ^ 2 + fish_zSpeedPortion f ^ 2 - 1| ≤
      1 / 1000000 := by
  have hne : f.targetX ≠ f.startX ∨ f.targetY ≠ f.startY ∨ f.targetZ ≠ f.startZ := by
    tauto
  have hS : (0 : ℝ) < ((f.targetX - f.startX : Int) : ℝ) ^ 2 +
      ((f.targetY - f.startY : Int) : ℝ) ^ 2 + ((f.targetZ - f.startZ : Int) : ℝ) ^ 2 := by
    rcases hne with h | h | h
    · have hx : ((f.targetX - f.startX : Int) : ℝ) ≠ 0 :=
        Int.cast_ne_zero.mpr (sub_ne_zero.mpr h)
      nlinarith [pow_two_pos_of_ne_zero hx,
        sq_nonneg ((f.targetY - f.startY : Int) : ℝ),
        sq_nonneg ((f.targetZ - f.startZ : Int) : ℝ)]
    · have hy : ((f.targetY - f.startY : Int) : ℝ) ≠ 0 :=
        Int.cast_ne_zero.mpr (sub_ne_zero.mpr h)
      nlinarith [pow_two_pos_of_ne_zero hy,
        sq_nonneg ((f.targetX - f.startX : Int) : ℝ),
        sq_nonneg ((f.targetZ - f.startZ : Int) : ℝ)]
    · have hz : ((f.targetZ - f.startZ : Int) : ℝ) ≠ 0 :=
        Int.cast_ne_zero.mpr (sub_ne_zero.mpr h)
      nlinarith [pow_two_pos_of_ne_zero hz,
        sq_nonneg ((f.targetX - f.startX : Int) : ℝ),
        sq_nonneg ((f.targetY - f.startY : Int) : ℝ)]
  have hsum : fish_xSpeedPortion f ^ 2 + fish_ySpeedPortion f ^ 2 +
      fish_zSpeedPortion f ^ 2 = 1 := by
    unfold fish_xSpeedPortion fish_ySpeedPortion fish_zSpeedPortion
    rw [div_pow, div_pow, div_pow, Real.sq_sqrt (le_of_lt hS),
      sq_abs, sq_abs, sq_abs, div_add_div_same, div_add_div_same]
    exact div_self (ne_of_gt hS)
  refine ⟨?_, ?_, ?_, ?_⟩
  · exact div_nonneg (abs_nonneg _) (Real.sqrt_nonneg _)
  · exact div_nonneg (abs_nonneg _) (Real.sqrt_nonneg _)
  · exact div_nonneg (abs_nonneg _) (Real.sqrt_nonneg _)
  · rw [hsum]
    norm_num

/-- Witness for claim C5 (amended): a fish mid-goal from (0,0,0)
toward (3,4,0) satisfies both hypotheses, so its speed portions are
non-negative and their squares sum to within 1e-6 of 1. -/
theorem fish_speedPortions_unit_vector_witness :
    (fish_goalActive { fish_example with targetX := 3, targetY := 4, subStepsLeftToGoal := 5 } ∧
      ¬ (({ fish_example with targetX := 3, targetY := 4, subStepsLeftToGoal := 5 } : Fish).targetX =
            ({ fish_example with targetX := 3, targetY := 4, subStepsLeftToGoal := 5 } : Fish).startX ∧
          ({ fish_example with targetX := 3, targetY := 4, subStepsLeftToGoal := 5 } : Fish).targetY =
            ({ fish_example with targetX := 3, targetY := 4, subStepsLeftToGoal := 5 } : Fish).startY ∧
          ({ fish_example with targetX := 3, targetY := 4, subStepsLeftToGoal := 5 } : Fish).targetZ =
            ({ fish_example with targetX := 3, targetY := 4, subStepsLeftToGoal := 5 } : Fish).startZ)) ∧
    |fish_xSpeedPortion { fish_example with targetX := 3, targetY := 4, subStepsLeftToGoal := 5 } ^ 2 +
      fish_ySpeedPortion { fish_example with targetX := 3, targetY := 4, subStepsLeftToGoal := 5 } ^ 2 +
      fish_zSpeedPortion { fish_example with targetX := 3, targetY := 4, subStepsLeftToGoal := 5 } ^ 2 - 1| ≤
        1 / 1000000 :=
  ⟨⟨by simp [fish_goalActive, fish_example], by simp [fish_example]⟩,
    (fish_speedPortions_unit_vector _
      (by simp [fish_goalActive, fish_example]) (by simp [fish_example])).2.2.2⟩

end AquariumLogic
